import Mathlib

/-!
# Verification of the Safety Classification & Recommendation Engine

Shallow embedding of `report.py` (AI-Maintainability-Analyzer).  Python
numbers (ints and the one-decimal floats produced by `round`) are modelled
as exact rationals; Python's `round` (banker's rounding, ties to even) is
modelled exactly on ℚ.  The insertion-ordered dicts used as tier tables
are modelled as ordered association lists, and dict iteration with
`break` / `for … else` becomes structural recursion over those lists.
The I/O performed by the facade (file reads, the external tokenizer, the
external complexity analyzer) is out of scope per the spec; its results
enter the embedding as `Except`-valued inputs, and a raised exception in
one of those steps is an `Except.error` value.
-/

/-- Python's `str.upper`, on the character list (ASCII names only). -/
def strUpper (s : String) : String := ⟨s.data.map Char.toUpper⟩

/-- Python's `round` to the nearest integer: round half to even. -/
def pyRoundInt (q : ℚ) : ℤ :=
  let f : ℤ := ⌊q⌋
  let r : ℚ := q - (f : ℚ)
  if r < 1/2 then f
  else if 1/2 < r then f + 1
  else if f % 2 = 0 then f else f + 1

/-- Python's `round(q, d)`: round to `d` decimal places, ties to even. -/
def pyRound (q : ℚ) (d : ℕ) : ℚ :=
  (pyRoundInt (q * (10 : ℚ) ^ d) : ℚ) / (10 : ℚ) ^ d

/-- `CLAUDE_TOLERANCES['python']['complexity_tiers']` (report.py lines 9-14),
in dict insertion order. -/
def complexity_tiers : List (String × ℚ) :=
  [("simple", 15), ("safe", 35), ("complex", 55), ("danger", 56)]

/-- `CLAUDE_TOLERANCES['config']['size_tiers']` (report.py lines 23-28),
in dict insertion order. -/
def size_tiers : List (String × ℚ) :=
  [("simple", 1000), ("safe", 2500), ("complex", 4000), ("danger", 4001)]

/-- `CLAUDE_TOLERANCES['python']['comment_tiers']` (report.py lines 15-20),
in dict insertion order. -/
def comment_tiers : List (String × ℚ) :=
  [("excellent", 25), ("good", 15), ("fair", 5), ("poor", 0)]

/-- `AI_THRESHOLDS` (report.py lines 32-45), in dict insertion order; each
entry carries `(python_complexity, config_size_kb)`. -/
def AI_THRESHOLDS : List (String × ℚ × ℚ) :=
  [("claude-3.5-sonnet", 55, 4000),
   ("claude-3.5-haiku", 35, 2500),
   ("gpt-4-turbo", 45, 3500)]

/-- `PYTHON_EXTS` (report.py line 47). -/
def PYTHON_EXTS : List String := [".py"]

/-- `CONFIG_EXTS` (report.py line 48). -/
def CONFIG_EXTS : List String :=
  [".ini", ".cfg", ".conf", ".toml", ".yml", ".yaml", ".json"]

/-- The base-tier lookup loop of `get_safety_rating` (report.py lines
119-124): iterate the tier table in insertion order, return the first
tier whose threshold is `≥` the metric (uppercased), and fall through to
`'DANGER'` when no tier matches (the `for … else` clause). -/
def lookup_tier : List (String × ℚ) → ℚ → String
  | [], _ => "DANGER"
  | (name, threshold) :: rest, metric =>
      if metric ≤ threshold then strUpper name else lookup_tier rest metric

/-- `safety_order` (report.py line 101). -/
def safety_order : List String := ["SIMPLE", "SAFE", "COMPLEX", "DANGER"]

/-- `adjust_safety` (report.py lines 99-110).  `list.index` raising
`ValueError` for a string outside the scale becomes the `none` branch. -/
def adjust_safety (base_safety : String) (comment_density : ℚ) : String :=
  match safety_order.indexOf? base_safety with
  | some idx =>
      if comment_density ≥ 25 then
        safety_order.getD (idx - 1) base_safety
      else if comment_density < 10 then
        safety_order.getD (min (safety_order.length - 1) (idx + 1)) base_safety
      else base_safety
  | none => base_safety

/-- The fields of the `file_data` dict consumed by `get_safety_rating` and
`get_ai_recommendations` (`type`, `complexity`, `size['kb']`,
`comment_density`, `safety`). -/
structure FileData where
  type : String
  complexity : ℚ
  size_kb : ℚ
  comment_density : ℚ
  safety : String

/-- `get_safety_rating` (report.py lines 112-130).  The `KeyError` raised
by `CLAUDE_TOLERANCES[file_type]` for an unrecognized type becomes the
`'ERROR'` branch. -/
def get_safety_rating (fd : FileData) : String :=
  if fd.type = "python" then
    adjust_safety (lookup_tier complexity_tiers fd.complexity) fd.comment_density
  else if fd.type = "config" then
    lookup_tier size_tiers fd.size_kb
  else "ERROR"

/-- The primary metric read by `get_ai_recommendations` (report.py line
144): complexity for python files, size-in-KB otherwise. -/
def primary_metric (fd : FileData) : ℚ :=
  if fd.type = "python" then fd.complexity else fd.size_kb

/-- The per-model threshold selected by file type (report.py line 143). -/
def model_threshold (file_type : String) (specs : ℚ × ℚ) : ℚ :=
  if file_type = "python" then specs.1 else specs.2

/-- The metric-filter loop of `get_ai_recommendations` (report.py lines
142-147): keep, in registry insertion order, every model whose threshold
for this file type is `≥` the primary metric. -/
def metric_filtered (fd : FileData) : List String :=
  (AI_THRESHOLDS.filter fun m => primary_metric fd ≤ model_threshold fd.type m.2).map
    fun m => m.1

/-- `get_ai_recommendations` (report.py lines 132-156).  All dict reads in
the body use `.get` with defaults, so the `except` branch returning
`['Analysis Failed']` is unreachable and the function is total. -/
def get_ai_recommendations (fd : FileData) : List String :=
  if fd.type ≠ "python" ∧ fd.type ≠ "config" then ["Human Review"]
  else
    let recommendations := metric_filtered fd
    if fd.safety = "DANGER" then
      if "claude-3.5-sonnet" ∈ recommendations then ["claude-3.5-sonnet"] else []
    else if fd.safety = "COMPLEX" then
      recommendations.filter fun m => m ≠ "claude-3.5-haiku"
    else recommendations

/-- The quality loop of `analyze_comments` (report.py lines 83-88):
`quality` starts as `'POOR'` and the loop breaks at the first tier whose
threshold the density reaches. -/
def first_quality : List (String × ℚ) → ℚ → String
  | [], _ => "POOR"
  | (name, threshold) :: rest, density =>
      if density ≥ threshold then strUpper name else first_quality rest density

/-- The classification core of `analyze_comments` (report.py lines 82-93),
taking the values the surrounding I/O derives from the file: the comment
token count, the line count, and whether the first line opens a doc
string (the spec's §4.1 contract; reading and tokenizing the file is the
external lexical scanner's job). -/
def analyze_comments (comment_lines total_lines : ℕ) (has_module_doc : Bool) :
    ℚ × String :=
  let density : ℚ :=
    if 0 < total_lines then pyRound ((comment_lines : ℚ) / (total_lines : ℚ) * 100) 1
    else 0
  let quality := first_quality comment_tiers density
  let quality := if total_lines = 0 ∧ has_module_doc = true then "EXCELLENT" else quality
  (density, quality)

/-- The size record built by `get_file_size` (report.py lines 54-58). -/
structure SizeInfo where
  bytes : ℚ
  kb : ℚ
  mb : ℚ
deriving DecidableEq

/-- `get_file_size` (report.py lines 50-60): the `OSError` branch is
caught internally and yields zeros. -/
def get_file_size (size_bytes : Except String ℕ) : SizeInfo :=
  match size_bytes with
  | .ok b =>
      { bytes := (b : ℚ)
        kb := pyRound ((b : ℚ) / 1024) 1
        mb := pyRound ((b : ℚ) / 1024 ^ 2) 3 }
  | .error _ => { bytes := 0, kb := 0, mb := 0 }

/-- The per-file result record built by `analyze_file` (report.py lines
170-180 and 202-212). -/
structure AnalysisResult where
  path : String
  type : String
  size : SizeInfo
  tokens : ℕ
  complexity : ℚ
  comment_density : ℚ
  comment_quality : String
  safety : String
  recommendations : List String
deriving DecidableEq

/-- The inputs of one `analyze_file` call: the path-derived strings and
the outcome of each fallible I/O step (`Except.error` models a raised
exception in that step). -/
structure FileInput where
  basename : String
  resolved_path : String
  ext : String
  size_bytes : Except String ℕ
  py_tokens : Except String ℕ
  py_complexity : Except String ℕ
  comment_read : Except String (ℕ × ℕ × Bool)
  config_tokens : Except String ℕ

/-- The file-type resolution of `analyze_file` (report.py line 165). -/
def fileTypeOf (ext : String) : String :=
  if ext ∈ PYTHON_EXTS then "python"
  else if ext ∈ CONFIG_EXTS then "config"
  else "other"

/-- The sentinel record returned by the `except` branch of `analyze_file`
(report.py lines 202-212). -/
def error_record (path : String) : AnalysisResult :=
  { path := path
    type := "error"
    size := { bytes := 0, kb := 0, mb := 0 }
    tokens := 0
    complexity := 0
    comment_density := 0
    comment_quality := "ERROR"
    safety := "ANALYSIS FAILED"
    recommendations := ["Human Review"] }

/-- The call to `analyze_comments` inside `analyze_file` (report.py lines
62-97): the tokenizer / file-read step may fail, and the internal
`except` branch then yields `(0, 'ERROR')`. -/
def analyze_comments_step (comment_read : Except String (ℕ × ℕ × Bool)) :
    ℚ × String :=
  match comment_read with
  | .ok (c, t, d) => analyze_comments c t d
  | .error _ => (0, "ERROR")

/-- `analyze_file` (report.py lines 158-212).  `none` models the `return
None` exclusions; any exception raised by an I/O step inside the `try`
block lands in the `except` branch, which returns the sentinel record. -/
def analyze_file (fi : FileInput) : Option AnalysisResult :=
  if fi.basename = "report.py" then none
  else
    let file_type := fileTypeOf fi.ext
    if file_type = "other" then none
    else if file_type = "python" then
      match fi.py_tokens, fi.py_complexity with
      | .ok tk, .ok cx =>
          let sz := get_file_size fi.size_bytes
          let cd := analyze_comments_step fi.comment_read
          let fd : FileData :=
            { type := file_type, complexity := (cx : ℚ), size_kb := sz.kb
              comment_density := cd.1, safety := "PENDING" }
          let safety := get_safety_rating fd
          let recs := get_ai_recommendations { fd with safety := safety }
          some { path := fi.resolved_path, type := file_type, size := sz
                 tokens := tk, complexity := (cx : ℚ)
                 comment_density := cd.1, comment_quality := cd.2
                 safety := safety, recommendations := recs }
      | _, _ => some (error_record fi.resolved_path)
    else
      match fi.config_tokens with
      | .ok tk =>
          let sz := get_file_size fi.size_bytes
          let fd : FileData :=
            { type := file_type, complexity := 0, size_kb := sz.kb
              comment_density := 0, safety := "PENDING" }
          let safety := get_safety_rating fd
          let recs := get_ai_recommendations { fd with safety := safety }
          some { path := fi.resolved_path, type := file_type, size := sz
                 tokens := tk, complexity := 0
                 comment_density := 0, comment_quality := "N/A"
                 safety := safety, recommendations := recs }
      | .error _ => some (error_record fi.resolved_path)

/-- The spec's reading of the base-tier scale: rank on the ordered scale
SIMPLE < SAFE < COMPLEX < DANGER. -/
def tierRank (s : String) : ℕ :=
  if s = "SIMPLE" then 0 else if s = "SAFE" then 1
  else if s = "COMPLEX" then 2 else 3

/-- The spec's "one step safer, clamped at SIMPLE". -/
def stepSafer (s : String) : String :=
  if s = "SIMPLE" then "SIMPLE" else if s = "SAFE" then "SIMPLE"
  else if s = "COMPLEX" then "SAFE" else "COMPLEX"

/-- The spec's "one step less safe, clamped at DANGER". -/
def stepWorse (s : String) : String :=
  if s = "SIMPLE" then "SAFE" else if s = "SAFE" then "COMPLEX" else "DANGER"

/-- The spec's descending comment-quality table, first match wins:
EXCELLENT ≥ 25, GOOD ≥ 15, FAIR ≥ 5, POOR as the explicit floor. -/
def table_quality (density : ℚ) : String :=
  if density ≥ 25 then "EXCELLENT" else if density ≥ 15 then "GOOD"
  else if density ≥ 5 then "FAIR" else "POOR"

example : lookup_tier complexity_tiers 10 = "SIMPLE" := by decide
example : lookup_tier complexity_tiers 56 = "DANGER" := by decide
example : lookup_tier size_tiers 5000 = "DANGER" := by decide
example : adjust_safety "SAFE" 30 = "SIMPLE" := by decide
example : adjust_safety "DANGER" 5 = "DANGER" := by decide
example : (analyze_comments 5 10 false).1 = 50 := by
  norm_num [analyze_comments, pyRound, pyRoundInt]
example : first_quality comment_tiers 50 = "EXCELLENT" := by decide
example : analyze_comments 0 0 true = (0, "EXCELLENT") := by decide
example : analyze_comments 0 0 false = (0, "POOR") := by decide
example : pyRound (1/2) 0 = 0 := by norm_num [pyRound, pyRoundInt]
example : pyRound (25/10) 0 = 2 := by norm_num [pyRound, pyRoundInt]
example : pyRound (35/10) 0 = 4 := by norm_num [pyRound, pyRoundInt]
example :
    get_ai_recommendations
      { type := "python", complexity := 50, size_kb := 0
        comment_density := 5, safety := "DANGER" } = ["claude-3.5-sonnet"] := by decide
example :
    get_ai_recommendations
      { type := "python", complexity := 40, size_kb := 0
        comment_density := 5, safety := "COMPLEX" } =
      ["claude-3.5-sonnet", "gpt-4-turbo"] := by decide

theorem lookup_complexity_eq (m : ℚ) :
    lookup_tier complexity_tiers m =
      if m ≤ 15 then "SIMPLE" else if m ≤ 35 then "SAFE" else if m ≤ 55 then "COMPLEX"
      else if m ≤ 56 then "DANGER" else "DANGER" := by
  simp only [complexity_tiers, lookup_tier]
  split_ifs <;> rfl

theorem lookup_size_eq (m : ℚ) :
    lookup_tier size_tiers m =
      if m ≤ 1000 then "SIMPLE" else if m ≤ 2500 then "SAFE" else if m ≤ 4000 then "COMPLEX"
      else if m ≤ 4001 then "DANGER" else "DANGER" := by
  simp only [size_tiers, lookup_tier]
  split_ifs <;> rfl

theorem adjust_eq (base : String) (hb : base ∈ safety_order) (d : ℚ) :
    adjust_safety base d =
      if d ≥ 25 then stepSafer base else if d < 10 then stepWorse base else base := by
  fin_cases hb <;> rfl

theorem get_safety_rating_config (fd : FileData) (hcfg : fd.type = "config") :
    get_safety_rating fd = lookup_tier size_tiers fd.size_kb := by
  unfold get_safety_rating
  rw [hcfg, if_neg (by decide), if_pos rfl]

theorem get_safety_rating_python (fd : FileData) (hpy : fd.type = "python") :
    get_safety_rating fd =
      adjust_safety (lookup_tier complexity_tiers fd.complexity) fd.comment_density := by
  unfold get_safety_rating
  rw [hpy, if_pos rfl]

theorem first_quality_eq (d : ℚ) : first_quality comment_tiers d = table_quality d := by
  simp only [comment_tiers, first_quality, table_quality]
  split_ifs <;> rfl

theorem get_ai_recommendations_recognized (fd : FileData)
    (hft : fd.type = "python" ∨ fd.type = "config") :
    get_ai_recommendations fd =
      if fd.safety = "DANGER" then
        if "claude-3.5-sonnet" ∈ metric_filtered fd then ["claude-3.5-sonnet"] else []
      else if fd.safety = "COMPLEX" then
        (metric_filtered fd).filter fun m => m ≠ "claude-3.5-haiku"
      else metric_filtered fd := by
  have hne : ¬(fd.type ≠ "python" ∧ fd.type ≠ "config") := by
    rcases hft with h | h <;> simp [h]
  unfold get_ai_recommendations
  rw [if_neg hne]

theorem mem_metric_filtered {fd : FileData} {model : String}
    (hm : model ∈ metric_filtered fd) :
    ∃ specs, (model, specs) ∈ AI_THRESHOLDS ∧
      primary_metric fd ≤ model_threshold fd.type specs := by
  simp only [metric_filtered, List.mem_map, List.mem_filter] at hm
  obtain ⟨⟨name, specs⟩, ⟨hmem, hle⟩, heq⟩ := hm
  subst heq
  exact ⟨specs, hmem, by simpa using hle⟩

theorem metric_filtered_sublist (fd : FileData) :
    (metric_filtered fd).Sublist (AI_THRESHOLDS.map fun m => m.1) :=
  List.Sublist.map _ (List.filter_sublist _)

/-- Claim C2: for every recognized file type and primary metric, the base
safety tier is the first tier, in ascending-threshold order
SIMPLE(15/1000), SAFE(35/2500), COMPLEX(55/4000), DANGER(56/4001), whose
threshold is ≥ the metric, falling through to DANGER when the metric
exceeds all thresholds; this lookup is the base tier of
`get_safety_rating` for both file types, and in particular a program
metric strictly above 55 and a config size strictly above 4000 KB
resolve to DANGER. -/
theorem C2_base_tier_first_match (m : ℚ) :
    (lookup_tier complexity_tiers m =
       if m ≤ 15 then "SIMPLE" else if m ≤ 35 then "SAFE" else if m ≤ 55 then "COMPLEX"
       else if m ≤ 56 then "DANGER" else "DANGER") ∧
    (lookup_tier size_tiers m =
       if m ≤ 1000 then "SIMPLE" else if m ≤ 2500 then "SAFE" else if m ≤ 4000 then "COMPLEX"
       else if m ≤ 4001 then "DANGER" else "DANGER") ∧
    (∀ fd : FileData, fd.type = "python" →
       get_safety_rating fd =
         adjust_safety (lookup_tier complexity_tiers fd.complexity) fd.comment_density) ∧
    (∀ fd : FileData, fd.type = "config" →
       get_safety_rating fd = lookup_tier size_tiers fd.size_kb) ∧
    (55 < m → lookup_tier complexity_tiers m = "DANGER") ∧
    (4000 < m → lookup_tier size_tiers m = "DANGER") := by
  refine ⟨lookup_complexity_eq m, lookup_size_eq m,
    fun fd h => get_safety_rating_python fd h,
    fun fd h => get_safety_rating_config fd h, ?_, ?_⟩
  · intro h
    rw [lookup_complexity_eq]
    split_ifs <;> first | rfl | (exfalso; linarith)
  · intro h
    rw [lookup_size_eq]
    split_ifs <;> first | rfl | (exfalso; linarith)

theorem C2_witness :
    (55 : ℚ) < 5000 ∧ (4000 : ℚ) < 5000 ∧
    lookup_tier size_tiers 5000 = "DANGER" :=
  ⟨by decide, by decide, (C2_base_tier_first_match 5000).2.2.2.2.2 (by decide)⟩

/-- Claim C3: for program files the resolved base tier is moved exactly
one step safer when the comment density is ≥ 25 (clamped at SIMPLE),
exactly one step less safe when it is < 10 (clamped at DANGER), and left
unchanged otherwise; config files never receive the adjustment, so their
rating equals the base tier. -/
theorem C3_comment_adjustment (base : String) (d : ℚ) (fd : FileData)
    (hb : base ∈ safety_order) (hcfg : fd.type = "config") :
    (25 ≤ d → adjust_safety base d = stepSafer base) ∧
    (d < 10 → adjust_safety base d = stepWorse base) ∧
    (10 ≤ d → d < 25 → adjust_safety base d = base) ∧
    get_safety_rating fd = lookup_tier size_tiers fd.size_kb := by
  refine ⟨?_, ?_, ?_, get_safety_rating_config fd hcfg⟩
  · intro h
    rw [adjust_eq base hb d, if_pos h]
  · intro h
    rw [adjust_eq base hb d, if_neg (by intro hge; linarith), if_pos h]
  · intro h1 h2
    rw [adjust_eq base hb d, if_neg (by intro hge; linarith), if_neg (not_lt.mpr h1)]

theorem C3_witness :
    "SAFE" ∈ safety_order ∧ (25 : ℚ) ≤ 30 ∧
    adjust_safety "SAFE" 30 = stepSafer "SAFE" :=
  ⟨by decide, by decide,
    (C3_comment_adjustment "SAFE" 30
      { type := "config", complexity := 0, size_kb := 0
        comment_density := 0, safety := "PENDING" }
      (by decide) rfl).1 (by decide)⟩

/-- Claim C6: for each recognized file type the base-tier lookup is
monotone: a smaller primary metric never resolves to a strictly less
safe tier on the scale SIMPLE < SAFE < COMPLEX < DANGER. -/
theorem C6_base_tier_monotone (m1 m2 : ℚ) (h : m1 ≤ m2) :
    tierRank (lookup_tier complexity_tiers m1) ≤ tierRank (lookup_tier complexity_tiers m2) ∧
    tierRank (lookup_tier size_tiers m1) ≤ tierRank (lookup_tier size_tiers m2) := by
  constructor
  · rw [lookup_complexity_eq, lookup_complexity_eq]
    split_ifs <;> first | decide | (exfalso; linarith)
  · rw [lookup_size_eq, lookup_size_eq]
    split_ifs <;> first | decide | (exfalso; linarith)

theorem C6_witness :
    (10 : ℚ) ≤ 50 ∧
    tierRank (lookup_tier complexity_tiers 10) ≤ tierRank (lookup_tier complexity_tiers 50) :=
  ⟨by decide, (C6_base_tier_monotone 10 50 (by decide)).1⟩

/-- Counterexample to claim C5 as stated: at `totalLineCount = 0` with a
leading doc block, the returned quality is the EXCELLENT override, not
the first match of the descending threshold table (POOR at density 0). -/
theorem C5_counterexample :
    (analyze_comments 0 0 true).1 = 0 ∧
    (analyze_comments 0 0 true).2 = "EXCELLENT" ∧
    table_quality (analyze_comments 0 0 true).1 = "POOR" ∧
    (analyze_comments 0 0 true).2 ≠ table_quality (analyze_comments 0 0 true).1 := by
  refine ⟨rfl, rfl, rfl, by decide⟩

/-- Claim C5 (amended): `analyze_comments` returns density
`round(commentTokenCount / totalLineCount * 100, 1)` when the line count
is positive and `0` otherwise, and the quality tier is the first match
of the descending table EXCELLENT ≥ 25, GOOD ≥ 15, FAIR ≥ 5 with POOR as
the explicit floor — except when `totalLineCount = 0` and the file has a
leading doc block, in which case the quality is overridden to
EXCELLENT. -/
theorem C5_density_and_quality_table (c t : ℕ) (doc : Bool) :
    ((analyze_comments c t doc).1 =
       if 0 < t then pyRound ((c : ℚ) / (t : ℚ) * 100) 1 else 0) ∧
    (¬(t = 0 ∧ doc = true) →
       (analyze_comments c t doc).2 = table_quality (analyze_comments c t doc).1) ∧
    (t = 0 ∧ doc = true → (analyze_comments c t doc).2 = "EXCELLENT") := by
  refine ⟨rfl, ?_, ?_⟩
  · intro h
    simp only [analyze_comments, if_neg h]
    exact first_quality_eq _
  · intro h
    simp only [analyze_comments, if_pos h]

theorem C5_witness :
    ¬((10 : ℕ) = 0 ∧ false = true) ∧
    (analyze_comments 5 10 false).2 = table_quality (analyze_comments 5 10 false).1 :=
  ⟨by decide, (C5_density_and_quality_table 5 10 false).2.1 (by decide)⟩

/-- Claim C8: with `totalLineCount = 0` and a leading doc block,
`analyze_comments` returns density 0 and quality EXCELLENT, whatever the
comment token count. -/
theorem C8_empty_file_doc_override (c : ℕ) :
    analyze_comments c 0 true = (0, "EXCELLENT") := by
  simp [analyze_comments]

/-- Claim C9: for a file type that is neither program nor config, the
recommendation filter returns exactly `["Human Review"]`, regardless of
metric and safety rating. -/
theorem C9_unrecognized_type (fd : FileData)
    (h1 : fd.type ≠ "python") (h2 : fd.type ≠ "config") :
    get_ai_recommendations fd = ["Human Review"] := by
  unfold get_ai_recommendations
  rw [if_pos ⟨h1, h2⟩]

theorem C9_witness :
    get_ai_recommendations
      { type := "other", complexity := 3, size_kb := 7
        comment_density := 50, safety := "SIMPLE" } = ["Human Review"] :=
  C9_unrecognized_type _ (by decide) (by decide)

/-- Claim C10: the safety post-filter acts only on DANGER and COMPLEX;
for a recognized file type, any other safety value (including the ERROR
sentinel) yields the full metric-filtered model list, never a sentinel
list. -/
theorem C10_post_filter_scope (fd : FileData)
    (hft : fd.type = "python" ∨ fd.type = "config")
    (h1 : fd.safety ≠ "DANGER") (h2 : fd.safety ≠ "COMPLEX") :
    get_ai_recommendations fd = metric_filtered fd ∧
    "Human Review" ∉ get_ai_recommendations fd ∧
    "Analysis Failed" ∉ get_ai_recommendations fd := by
  have heq : get_ai_recommendations fd = metric_filtered fd := by
    rw [get_ai_recommendations_recognized fd hft, if_neg h1, if_neg h2]
  refine ⟨heq, ?_, ?_⟩ <;> rw [heq] <;> intro hmem
  · exact absurd ((metric_filtered_sublist fd).subset hmem) (by decide)
  · exact absurd ((metric_filtered_sublist fd).subset hmem) (by decide)

theorem C10_witness :
    get_ai_recommendations
      { type := "python", complexity := 40, size_kb := 0
        comment_density := 0, safety := "ERROR" } =
      metric_filtered
        { type := "python", complexity := 40, size_kb := 0
          comment_density := 0, safety := "ERROR" } :=
  (C10_post_filter_scope _ (Or.inl rfl) (by decide) (by decide)).1

/-- Claim C4: for a recognized file type, the recommendation list never
contains a model whose registered threshold for that type is strictly
below the primary metric, and its models appear in registry insertion
order (the output is a sublist of the registry's key sequence). -/
theorem C4_threshold_respected_in_order (fd : FileData)
    (hft : fd.type = "python" ∨ fd.type = "config") :
    (∀ model ∈ get_ai_recommendations fd,
       ∃ specs, (model, specs) ∈ AI_THRESHOLDS ∧
         ¬ model_threshold fd.type specs < primary_metric fd) ∧
    (get_ai_recommendations fd).Sublist (AI_THRESHOLDS.map fun m => m.1) := by
  rw [get_ai_recommendations_recognized fd hft]
  split_ifs with hd hs hc
  · constructor
    · intro model hm
      rw [List.mem_singleton] at hm
      subst hm
      obtain ⟨specs, hmem, hle⟩ := mem_metric_filtered hs
      exact ⟨specs, hmem, not_lt.mpr hle⟩
    · rw [List.singleton_sublist]
      decide
  · exact ⟨fun model hm => absurd hm (List.not_mem_nil model), List.nil_sublist _⟩
  · constructor
    · intro model hm
      obtain ⟨specs, hmem, hle⟩ := mem_metric_filtered (List.mem_of_mem_filter hm)
      exact ⟨specs, hmem, not_lt.mpr hle⟩
    · exact (List.filter_sublist _).trans (metric_filtered_sublist fd)
  · constructor
    · intro model hm
      obtain ⟨specs, hmem, hle⟩ := mem_metric_filtered hm
      exact ⟨specs, hmem, not_lt.mpr hle⟩
    · exact metric_filtered_sublist fd

theorem C4_witness :
    (get_ai_recommendations
      { type := "python", complexity := 40, size_kb := 0
        comment_density := 0, safety := "SAFE" }).Sublist
      (AI_THRESHOLDS.map fun m => m.1) :=
  (C4_threshold_respected_in_order _ (Or.inl rfl)).2

/-- Claim C7: under DANGER the filter returns at most one model — exactly
the top-capability model `claude-3.5-sonnet` when it survived the metric
filter and the empty list otherwise; under COMPLEX it removes the
weakest-capability model `claude-3.5-haiku` from the surviving set; under
SIMPLE or SAFE it applies no further filtering.  The final conjuncts
certify that in the registry the sonnet entry has the maximal and the
haiku entry the minimal threshold for the given file type. -/
theorem C7_danger_complex_filters (fd : FileData)
    (hft : fd.type = "python" ∨ fd.type = "config") :
    (fd.safety = "DANGER" →
       (get_ai_recommendations fd).length ≤ 1 ∧
       ("claude-3.5-sonnet" ∈ metric_filtered fd →
          get_ai_recommendations fd = ["claude-3.5-sonnet"]) ∧
       ("claude-3.5-sonnet" ∉ metric_filtered fd → get_ai_recommendations fd = [])) ∧
    (fd.safety = "COMPLEX" →
       get_ai_recommendations fd =
         (metric_filtered fd).filter fun m => m ≠ "claude-3.5-haiku") ∧
    (fd.safety = "SIMPLE" ∨ fd.safety = "SAFE" →
       get_ai_recommendations fd = metric_filtered fd) ∧
    (∀ p ∈ AI_THRESHOLDS, p.1 = "claude-3.5-sonnet" →
       ∀ q ∈ AI_THRESHOLDS, model_threshold fd.type q.2 ≤ model_threshold fd.type p.2) ∧
    (∀ p ∈ AI_THRESHOLDS, p.1 = "claude-3.5-haiku" →
       ∀ q ∈ AI_THRESHOLDS, model_threshold fd.type p.2 ≤ model_threshold fd.type q.2) := by
  refine ⟨?_, ?_, ?_, ?_, ?_⟩
  · intro h
    rw [get_ai_recommendations_recognized fd hft, if_pos h]
    refine ⟨?_, fun hs => by rw [if_pos hs], fun hs => by rw [if_neg hs]⟩
    split_ifs <;> decide
  · intro h
    have hd : fd.safety ≠ "DANGER" := by rw [h]; decide
    rw [get_ai_recommendations_recognized fd hft, if_neg hd, if_pos h]
  · intro h
    have hd : fd.safety ≠ "DANGER" := by rcases h with h | h <;> rw [h] <;> decide
    have hc : fd.safety ≠ "COMPLEX" := by rcases h with h | h <;> rw [h] <;> decide
    rw [get_ai_recommendations_recognized fd hft, if_neg hd, if_neg hc]
  · rcases hft with h | h <;> rw [h] <;> decide
  · rcases hft with h | h <;> rw [h] <;> decide

theorem C7_witness :
    "claude-3.5-sonnet" ∈ metric_filtered
      { type := "python", complexity := 50, size_kb := 0
        comment_density := 0, safety := "DANGER" } ∧
    get_ai_recommendations
      { type := "python", complexity := 50, size_kb := 0
        comment_density := 0, safety := "DANGER" } = ["claude-3.5-sonnet"] :=
  ⟨by decide, ((C7_danger_complex_filters _ (Or.inl rfl)).1 rfl).2.1 (by decide)⟩

/-- Claim C1: the classification facade is total by construction (it
returns a value for every input instead of propagating an exception),
and every failure path — a raised exception in any I/O step of the `try`
block, for either file type — yields the fully-populated sentinel record
whose safety is `'ANALYSIS FAILED'`, whose recommendations are exactly
`["Human Review"]`, and whose numeric fields are all zero. -/
theorem C1_failure_yields_sentinel (fi : FileInput)
    (hname : fi.basename ≠ "report.py")
    (hfail :
      (fileTypeOf fi.ext = "python" ∧
        ((∃ e, fi.py_tokens = Except.error e) ∨ (∃ e, fi.py_complexity = Except.error e))) ∨
      (fileTypeOf fi.ext = "config" ∧ ∃ e, fi.config_tokens = Except.error e)) :
    analyze_file fi = some (error_record fi.resolved_path) ∧
    (error_record fi.resolved_path).safety = "ANALYSIS FAILED" ∧
    (error_record fi.resolved_path).recommendations = ["Human Review"] ∧
    (error_record fi.resolved_path).size = { bytes := 0, kb := 0, mb := 0 } ∧
    (error_record fi.resolved_path).tokens = 0 ∧
    (error_record fi.resolved_path).complexity = 0 ∧
    (error_record fi.resolved_path).comment_density = 0 := by
  refine ⟨?_, rfl, rfl, rfl, rfl, rfl, rfl⟩
  rcases hfail with ⟨hpy, herr⟩ | ⟨hcfg, e, herr⟩
  · rcases herr with ⟨e, he⟩ | ⟨e, he⟩
    · simp [analyze_file, hname, hpy, he]
    · cases htk : fi.py_tokens <;> simp [analyze_file, hname, hpy, he, htk]
  · simp [analyze_file, hname, hcfg, herr]

theorem C1_witness :
    analyze_file
      { basename := "app.py", resolved_path := "/ws/app.py", ext := ".py"
        size_bytes := Except.ok 2048, py_tokens := Except.error "tokenize failed"
        py_complexity := Except.ok 3, comment_read := Except.ok (1, 2, true)
        config_tokens := Except.ok 0 } =
      some (error_record "/ws/app.py") :=
  (C1_failure_yields_sentinel _ (by decide)
    (Or.inl ⟨by decide, Or.inl ⟨"tokenize failed", rfl⟩⟩)).1
